import Mathlib

/-
Verification of the python-seawater repository (files src/seawater/sea-tmp.py and
src/seawater/extras/sw_extras.py).

Three embeddings are used, each matching the aspect of the code under study.

1. A name-resolution model of sea-tmp.py.  That file contains no import statement
   and its function bodies read uppercase names (S, T, P, PR, np, T68conv, ...)
   while the parameters are lowercase, so every function raises NameError (or its
   subclass UnboundLocalError) when executed.  Each function is recorded as its
   parameter list, the set of names assigned anywhere in its body (Python locals),
   and the sequence of name-assignment / name-read / call events its body performs
   in evaluation order, truncated at the first read that cannot resolve (every
   later event is unreachable, since the raise aborts the body).  Attribute access
   and arithmetic on the array-like arguments are value operations, not name
   resolutions, and do not appear as events.

2. An exact extended-value arithmetic over the rationals (every finite IEEE-754
   double is rational) with positive infinity, negative infinity and nan, and the
   IEEE/numpy rules for division and subtraction on them.  numpy emits a warning,
   not an exception, on division by zero, so these operations are total.  Signed
   zeros are not tracked: a literal zero denominator is treated as numpy's
   default +0.0.  Used for the degenerate-denominator claims about richnumb
   (sw_extras.py) and the master density equation (sea-tmp.py).

3. A real-valued embedding of the formula layer.  Bodies of sea-tmp.py read the
   uppercase names S, T, P, PR as the documented parameters s, t, p, pr (the
   intent recorded in the docstrings; the literal dynamic behavior is the subject
   of embedding 1).  The conversion constant T68conv and the adiabatic gradient
   function adtg live in seawater.csiro, which is not under src/; modelled from
   the spec, which describes T68conv as a fixed multiplicative ITS-68/ITS-90
   conversion constant and adtg as the adiabatic temperature gradient, both are
   kept abstract as parameters, so every theorem below holds for any value of
   them.  sw.dens and sw.pden called by sw_extras.py also come from
   seawater.csiro; modelled from the spec, which states they are the same EOS-80
   formulas, they are identified with dens and pden of sea-tmp.py.
-/

namespace SW

/-- A name event of a Python function body, in evaluation order:
an assignment binding a local name, a read of a name, or a call into another
function of the same module. -/
inductive Event where
  | assign : String → Event
  | read : String → Event
  | call : String → Event
deriving DecidableEq

/-- A function of sea-tmp.py: its name, parameters, the names assigned anywhere
in its body (Python statically treats these as locals), and the body's event
sequence up to the first unresolvable read (the remainder is unreachable). -/
structure PyFun where
  pname : String
  params : List String
  locals : List String
  body : List Event

/-- Names bound at module level in sea-tmp.py: only the nineteen function
definitions.  The file has no import statement and no other top-level
assignment. -/
def moduleNames : List String :=
  ["svel", "pres", "dist", "satAr", "satN2", "satO2", "dens0", "smow", "seck",
   "dens", "pden", "svan", "gpan", "gvel", "gvel2", "cp", "ptmp", "temp",
   "swvel"]

/-- Python builtins referenced by the bodies. -/
def builtins : List String := ["max", "abs", "any", "print"]

/-- Executes an event list.  Returns true when a read raises: a name that is a
local (assigned somewhere in the body) but not yet assigned raises
UnboundLocalError, a subclass of NameError; a name that is neither a bound
local, nor a module-level name, nor a builtin raises NameError.  A call raises
when the callee does.  The environment starts as the parameter list, since
parameters are pre-bound locals. -/
def runBody (lcls : List String) (callRaises : String → Bool) :
    List Event → List String → Bool
  | [], _ => false
  | Event.assign n :: rest, env => runBody lcls callRaises rest (n :: env)
  | Event.read n :: rest, env =>
    if n ∈ env then runBody lcls callRaises rest env
    else if n ∈ lcls then true
    else if n ∈ moduleNames ∨ n ∈ builtins then runBody lcls callRaises rest env
    else true
  | Event.call n :: rest, env =>
    if callRaises n then true else runBody lcls callRaises rest env

/-- svel, lines 1-117: first statement is P = P/10; P is local (assigned) and
read before assignment. -/
def svelFn : PyFun :=
  { pname := "svel", params := ["s", "t", "p"],
    locals := ["P", "T68", "c00", "c01", "c02", "c03", "c04", "c05",
               "c10", "c11", "c12", "c13", "c14",
               "c20", "c21", "c22", "c23", "c24", "c30", "c31", "c32", "Cw",
               "a00", "a01", "a02", "a03", "a04",
               "a10", "a11", "a12", "a13", "a14",
               "a20", "a21", "a22", "a23", "a30", "a31", "a32", "A",
               "b00", "b01", "b10", "b11", "B", "d00", "d10", "D", "svel"],
    body := [Event.read "P"] }

/-- pres, lines 119-161: first statement is X = np.sin(abs(LAT) * DEG2RAD);
np is loaded first and is unbound. -/
def presFn : PyFun :=
  { pname := "pres", params := ["depth", "lat"],
    locals := ["X", "C1", "pres"],
    body := [Event.read "np"] }

/-- dist, lines 163-227: three constant assignments, then
npositions = max(lat.shape) which resolves max (builtin) and lat (parameter),
then ind = np.arange(...) reads unbound np. -/
def distFn : PyFun :=
  { pname := "dist", params := ["lon", "lat"],
    locals := ["DEG2MIN", "DEG2NM", "NM2KM", "npositions", "ind", "dlon",
               "flag", "latrad", "dep", "dlat", "dist", "RAD2DEG",
               "phaseangle"],
    body := [Event.assign "DEG2MIN", Event.assign "DEG2NM",
             Event.assign "NM2KM", Event.read "max", Event.read "lat",
             Event.assign "npositions", Event.read "np"] }

/-- satAr, lines 229-284: first statement is T = 273.15 + T * T68conv;
T is local and read before assignment. -/
def satArFn : PyFun :=
  { pname := "satAr", params := ["s", "t"],
    locals := ["T", "a1", "a2", "a3", "a4", "b1", "b2", "b3", "lnC", "c"],
    body := [Event.read "T"] }

/-- satN2, lines 286-340: same structure as satAr. -/
def satN2Fn : PyFun :=
  { pname := "satN2", params := ["s", "t"],
    locals := ["T", "a1", "a2", "a3", "a4", "b1", "b2", "b3", "lnC", "c"],
    body := [Event.read "T"] }

/-- satO2, lines 342-396: same structure as satAr. -/
def satO2Fn : PyFun :=
  { pname := "satO2", params := ["s", "t"],
    locals := ["T", "a1", "a2", "a3", "a4", "b1", "b2", "b3", "lnC", "c"],
    body := [Event.read "T"] }

/-- dens0, lines 398-462: first statement is T68 = T * T68conv; T is read and
is neither local nor parameter (the parameter is lowercase t). -/
def dens0Fn : PyFun :=
  { pname := "dens0", params := ["s", "t"],
    locals := ["T68", "b0", "b1", "b2", "b3", "b4", "c0", "c1", "c2", "d0",
               "dens"],
    body := [Event.read "T"] }

/-- smow, lines 464-512: six coefficient assignments, then
T68 = T * T68conv reads unbound T. -/
def smowFn : PyFun :=
  { pname := "smow", params := ["t"],
    locals := ["a0", "a1", "a2", "a3", "a4", "a5", "T68", "dens"],
    body := [Event.assign "a0", Event.assign "a1", Event.assign "a2",
             Event.assign "a3", Event.assign "a4", Event.assign "a5",
             Event.read "T"] }

/-- seck, lines 514-624: first statement is P = P/10.0; P is local and read
before assignment. -/
def seckFn : PyFun :=
  { pname := "seck", params := ["s", "t", "p"],
    locals := ["P", "T68", "h3", "h2", "h1", "h0", "AW", "k2", "k1", "k0",
               "BW", "e4", "e3", "e2", "e1", "e0", "KW", "j0", "i2", "i1",
               "i0", "SR", "A", "m2", "m1", "m0", "B", "f3", "f2", "f1",
               "f0", "g2", "g1", "g0", "K0", "K"],
    body := [Event.read "P"] }

/-- dens, lines 626-682: densP0 = dens0(S, T) loads dens0 (module name, fine)
then reads unbound S. -/
def densFn : PyFun :=
  { pname := "dens", params := ["s", "t", "p"],
    locals := ["densP0", "K", "P", "dens"],
    body := [Event.read "dens0", Event.read "S"] }

/-- pden, lines 684-735: PT = ptmp(S, T, P, PR) loads ptmp then reads
unbound S. -/
def pdenFn : PyFun :=
  { pname := "pden", params := ["s", "t", "p", "pr"],
    locals := ["PT", "pden"],
    body := [Event.read "ptmp", Event.read "S"] }

/-- svan, lines 737-793: svan = 1/dens(S, T, P) - 1/dens(35, 0.0, P) loads
dens then reads unbound S. -/
def svanFn : PyFun :=
  { pname := "svan", params := ["s", "t", "p"],
    locals := ["svan"],
    body := [Event.read "dens", Event.read "S"] }

/-- gpan, lines 795-865: db2Pascal = 1e4, then the condition P.ndim reads
unbound P. -/
def gpanFn : PyFun :=
  { pname := "gpan", params := ["s", "t", "p"],
    locals := ["db2Pascal", "m", "n", "svn", "mean_svan", "top", "delta_ga",
               "ga"],
    body := [Event.assign "db2Pascal", Event.read "P"] }

/-- gvel, lines 867-928: dista, phase = dist(lon, lat) resolves dist, lon and
lat, then the call into dist raises inside the callee. -/
def gvelFn : PyFun :=
  { pname := "gvel", params := ["ga", "lon", "lat"],
    locals := ["dista", "phase", "distm", "m", "n", "f", "lf", "vel"],
    body := [Event.read "dist", Event.read "lon", Event.read "lat",
             Event.call "dist"] }

/-- gvel2, lines 930-979: distm = 1000.0 * dista reads unbound dista (the
parameter is named dist, not dista). -/
def gvel2Fn : PyFun :=
  { pname := "gvel2", params := ["ga", "dist", "lat"],
    locals := ["distm", "m", "n", "f", "lf", "vel"],
    body := [Event.read "dista"] }

/-- cp, lines 981-1108: first statement is P = P/10; P is local and read
before assignment. -/
def cpFn : PyFun :=
  { pname := "cp", params := ["s", "t", "p"],
    locals := ["P", "T68", "c0", "c1", "c2", "c3", "c4", "a0", "a1", "a2",
               "a3", "a4", "b0", "b1", "b2", "b3", "b4", "Cpst0",
               "del_Cp0t0", "d0", "d1", "d2", "d3", "d4", "e0", "e1", "e2",
               "f0", "f1", "f2", "f3", "g0", "h0", "h1", "h2", "j1", "S3_2",
               "del_Cpstp", "cp"],
    body := [Event.read "P"] }

/-- ptmp, lines 1110-1184: del_P = PR - P reads unbound PR (the parameter is
lowercase pr). -/
def ptmpFn : PyFun :=
  { pname := "ptmp", params := ["s", "t", "p", "pr"],
    locals := ["del_P", "del_th", "th", "q", "PT"],
    body := [Event.read "PR"] }

/-- temp, lines 1186-1244: T = ptmp(S, PTMP, PR, P) loads ptmp then reads
unbound S. -/
def tempFn : PyFun :=
  { pname := "temp", params := ["s", "pt", "p", "pr"],
    locals := ["T"],
    body := [Event.read "ptmp", Event.read "S"] }

/-- swvel, lines 1246-1277: k = 2.0 * np.pi / lenth loads unbound np. -/
def swvelFn : PyFun :=
  { pname := "swvel", params := ["lenth", "depth"],
    locals := ["k", "speed"],
    body := [Event.read "np"] }

/-- The nineteen functions of sea-tmp.py in source order. -/
def pyModule : List PyFun :=
  [svelFn, presFn, distFn, satArFn, satN2Fn, satO2Fn, dens0Fn, smowFn,
   seckFn, densFn, pdenFn, svanFn, gpanFn, gvelFn, gvel2Fn, cpFn, ptmpFn,
   tempFn, swvelFn]

/-- Whether a function raises on its own reads, with calls assumed to
succeed.  Only dist is ever entered as a callee and it raises on its own
reads, so one level suffices. -/
def raisesPlain (f : PyFun) : Bool :=
  runBody f.locals (fun _ => false) f.body f.params

/-- A call raises when the callee, looked up among the module functions,
raises on its own reads. -/
def callEnv (n : String) : Bool :=
  pyModule.any (fun f => f.pname == n && raisesPlain f)

/-- Whether executing the function raises a NameError (including its subclass
UnboundLocalError), with calls resolved through the module. -/
def raisesNameError (f : PyFun) : Bool :=
  runBody f.locals callEnv f.body f.params

/-- Extended value: a finite rational, one of the two infinities, or nan.
Every finite IEEE-754 double is a rational, so the finite case covers the
values numpy computes with. -/
inductive EF where
  | fin : ℚ → EF
  | pinf : EF
  | ninf : EF
  | nan : EF
deriving DecidableEq

/-- numpy sign on a finite value: -1, 0 or 1. -/
def qsign (x : ℚ) : ℚ := if x < 0 then -1 else if 0 < x then 1 else 0

/-- IEEE/numpy division on extended values.  Division by (positive) zero gives
an infinity of the numerator's sign, zero by zero gives nan; a finite value
over an infinity gives zero; nan propagates.  No exception is raised: the
operation is total. -/
def EF.div : EF → EF → EF
  | EF.fin a, EF.fin b =>
    if b = 0 then
      if a = 0 then EF.nan else if 0 < a then EF.pinf else EF.ninf
    else EF.fin (a / b)
  | EF.fin _, EF.pinf => EF.fin 0
  | EF.fin _, EF.ninf => EF.fin 0
  | EF.pinf, EF.fin b => if b < 0 then EF.ninf else EF.pinf
  | EF.ninf, EF.fin b => if b < 0 then EF.pinf else EF.ninf
  | EF.pinf, EF.pinf => EF.nan
  | EF.pinf, EF.ninf => EF.nan
  | EF.ninf, EF.pinf => EF.nan
  | EF.ninf, EF.ninf => EF.nan
  | EF.nan, _ => EF.nan
  | _, EF.nan => EF.nan

/-- IEEE/numpy subtraction on extended values. -/
def EF.sub : EF → EF → EF
  | EF.fin a, EF.fin b => EF.fin (a - b)
  | EF.fin _, EF.pinf => EF.ninf
  | EF.fin _, EF.ninf => EF.pinf
  | EF.pinf, EF.fin _ => EF.pinf
  | EF.ninf, EF.fin _ => EF.ninf
  | EF.pinf, EF.pinf => EF.nan
  | EF.pinf, EF.ninf => EF.pinf
  | EF.ninf, EF.pinf => EF.ninf
  | EF.ninf, EF.ninf => EF.nan
  | EF.nan, _ => EF.nan
  | _, EF.nan => EF.nan

/-- True for the infinities and nan. -/
def EF.nonFinite : EF → Bool
  | EF.fin _ => false
  | _ => true

/-- richnumb of sw_extras.py lines 278-281 on finite inputs, evaluated in the
extended arithmetic: n2 = n**2 * sign(n), s2 = s**2, ri = n2 / s2. -/
def richnumbQ (n s : ℚ) : EF :=
  EF.div (EF.fin (n ^ 2 * qsign n)) (EF.fin (s ^ 2))

/-- The master density equation of dens, sea-tmp.py lines 680-681, with the
already computed surface density densP0 and bulk modulus K as finite inputs:
P = p/10 (decibars to bars), dens = densP0 / (1 - P/K), evaluated in the
extended arithmetic. -/
def densQ (densP0 K p : ℚ) : EF :=
  EF.div (EF.fin densP0)
    (EF.sub (EF.fin 1) (EF.div (EF.fin (p / 10)) (EF.fin K)))

noncomputable section

/-- smow, sea-tmp.py lines 503-512: density of pure water, a fifth-degree
polynomial in T68 = t * T68conv in Horner form.  The first argument c is the
abstract conversion constant T68conv (defined in seawater.csiro, not under
src/). -/
def smow (c t : ℝ) : ℝ :=
  let T68 := t * c
  999.842594 + (6.793952e-2 + (-9.095290e-3 + (1.001685e-4 +
    (-1.120083e-6 + 6.536332e-9 * T68) * T68) * T68) * T68) * T68

/-- dens0, sea-tmp.py lines 446-461: surface density, smow plus salinity
correction terms in s, s^1.5 (written s * sqrt s, as the source's
S * S**0.5) and s^2. -/
def dens0 (c s t : ℝ) : ℝ :=
  let T68 := t * c
  smow c t +
    (8.24493e-1 + (-4.0899e-3 + (7.6438e-5 + (-8.2467e-7 +
      5.3875e-9 * T68) * T68) * T68) * T68) * s +
    (-5.72466e-3 + (1.0227e-4 + -1.6546e-6 * T68) * T68) * s * Real.sqrt s +
    4.8314e-4 * s ^ 2

/-- seck, sea-tmp.py lines 568-624: secant bulk modulus in bars.  P = p / 10
converts decibars to bars; AW, BW, KW are the pure-water terms, A, B, K0 add
the salinity terms, and K = K0 + (A + B * P) * P. -/
def seck (c s t p : ℝ) : ℝ :=
  let P := p / 10
  let T68 := t * c
  let AW := 3.239908 + (1.43713e-3 + (1.16092e-4 + -5.77905e-7 * T68) * T68) * T68
  let BW := 8.50935e-5 + (-6.12293e-6 + 5.2787e-8 * T68) * T68
  let KW := 19652.21 + (148.4206 + (-2.327105 + (1.360477e-2 +
    -5.155288e-5 * T68) * T68) * T68) * T68
  let SR := Real.sqrt s
  let A := AW + (2.2838e-3 + (-1.0981e-5 + -1.6078e-6 * T68) * T68 +
    1.91075e-4 * SR) * s
  let B := BW + (-9.9348e-7 + (2.0816e-8 + 9.1697e-10 * T68) * T68) * s
  let K0 := KW + (54.6746 + (-0.603459 + (1.09987e-2 + -6.1670e-5 * T68) * T68) * T68 +
    (7.944e-2 + (1.6483e-2 + -5.3009e-4 * T68) * T68) * SR) * s
  K0 + (A + B * P) * P

/-- dens, sea-tmp.py lines 678-681: densP0 = dens0(s, t), K = seck(s, t, p),
P = p / 10 (decibars to bars, the same units K is in), dens = densP0 / (1 - P/K). -/
def dens (c s t p : ℝ) : ℝ :=
  let densP0 := dens0 c s t
  let K := seck c s t p
  let P := p / 10
  densP0 / (1 - P / K)

/-- ptmp, sea-tmp.py lines 1166-1183: four-stage explicit integration of the
adiabatic gradient over del_P = pr - p, carried in T68 units and converted
back at the end.  The argument adtg is the adiabatic temperature gradient
function (defined in seawater.csiro, not under src/), kept abstract. -/
def ptmp (c : ℝ) (adtg : ℝ → ℝ → ℝ → ℝ) (s t p pr : ℝ) : ℝ :=
  let del_P := pr - p
  let del_th1 := del_P * adtg s t p
  let th1 := t * c + 0.5 * del_th1
  let q1 := del_th1
  let del_th2 := del_P * adtg s (th1 / c) (p + 0.5 * del_P)
  let th2 := th1 + (1 - 1 / Real.sqrt 2) * (del_th2 - q1)
  let q2 := (2 - Real.sqrt 2) * del_th2 + (-2 + 3 / Real.sqrt 2) * q1
  let del_th3 := del_P * adtg s (th2 / c) (p + 0.5 * del_P)
  let th3 := th2 + (1 + 1 / Real.sqrt 2) * (del_th3 - q2)
  let q3 := (2 + Real.sqrt 2) * del_th3 + (-2 - 3 / Real.sqrt 2) * q2
  let del_th4 := del_P * adtg s (th3 / c) (p + del_P)
  (th3 + (del_th4 - 2 * q3) / 6) / c

/-- pden, sea-tmp.py lines 733-734: PT = ptmp(s, t, p, pr),
pden = dens(s, PT, pr). -/
def pden (c : ℝ) (adtg : ℝ → ℝ → ℝ → ℝ) (s t p pr : ℝ) : ℝ :=
  dens c s (ptmp c adtg s t p pr) pr

/-- temp, sea-tmp.py line 1242: the inverse is a single call to the forward
integrator with P and PR swapped, ptmp(s, pt, pr, p). -/
def temp (c : ℝ) (adtg : ℝ → ℝ → ℝ → ℝ) (s pt p pr : ℝ) : ℝ :=
  ptmp c adtg s pt pr p

/-- svan, sea-tmp.py line 791: 1/dens(s, t, p) - 1/dens(35, 0.0, p). -/
def svan (c s t p : ℝ) : ℝ :=
  1 / dens c s t p - 1 / dens c 35 0 p

/-- sigma_t, sw_extras.py line 62: sw.dens(s, t, p) - 1000.0, elementwise.
sw.dens lives in seawater.csiro, not under src/; modelled from the spec as the
EOS-80 dens above. -/
def sigma_t (c s t p : ℝ) : ℝ := dens c s t p - 1000

/-- dens applied elementwise to equal-length salinity, temperature and
pressure columns, the broadcast the numpy code performs on array input. -/
def densVec (c : ℝ) : List ℝ → List ℝ → List ℝ → List ℝ
  | s :: ss, t :: ts, p :: ps => dens c s t p :: densVec c ss ts ps
  | _, _, _ => []

/-- sigma_t applied elementwise, the array form of sw_extras.py line 62. -/
def sigma_tVec (c : ℝ) : List ℝ → List ℝ → List ℝ → List ℝ
  | s :: ss, t :: ts, p :: ps => sigma_t c s t p :: sigma_tVec c ss ts ps
  | _, _, _ => []

/-- N, sw_extras.py line 164: bvfr = sqrt(abs(bvfr2)) * sign(bvfr2), the
sign-preserving square root.  Total: no branch raises on negative input. -/
def N (bvfr2 : ℝ) : ℝ := Real.sqrt |bvfr2| * Real.sign bvfr2

/-- The sign-preserving square n**2 * sign(n) computed inside richnumb,
sw_extras.py line 278. -/
def signSquare (n : ℝ) : ℝ := n ^ 2 * Real.sign n

/-- richnumb, sw_extras.py lines 278-281, as a real-valued formula:
ri = (n**2 * sign(n)) / s**2. -/
def richnumbR (n s : ℝ) : ℝ := signSquare n / s ^ 2

/-- Consecutive differences, numpy diff along the station axis. -/
def listDiff : List ℝ → List ℝ
  | a :: b :: rest => (b - a) :: listDiff (b :: rest)
  | _ => []

/-- Consecutive pairs (x[i], x[i+1]) of a list. -/
def listPairs : List ℝ → List (ℝ × ℝ)
  | a :: b :: rest => (a, b) :: listPairs (b :: rest)
  | _ => []

/-- The antimeridian correction applied to one longitude difference by dist,
sea-tmp.py lines 211-213: where abs(dlon) > 180, dlon is replaced by
-sign(dlon) * (360 - abs(dlon)); elsewhere it is unchanged. -/
def dlonFix (d : ℝ) : ℝ :=
  if 180 < |d| then -Real.sign d * (360 - |d|) else d

/-- The corrected longitude differences dist computes before the distance
computation, sea-tmp.py lines 210-213. -/
def distDlon (lon : List ℝ) : List ℝ := (listDiff lon).map dlonFix

/-- The distance output of dist, sea-tmp.py lines 215-221, in kilometers:
latrad = abs(lat * DEG2RAD), dep = cos(midpoint of consecutive latrad) * dlon
with dlon already corrected, dist = 60 * sqrt(dlat**2 + dep**2) * 1.8520.
DEG2RAD lives in seawater.csiro, not under src/; modelled from the spec as an
abstract conversion constant deg2rad. -/
def distKm (deg2rad : ℝ) (lon lat : List ℝ) : List ℝ :=
  let dlon := distDlon lon
  let latrad := lat.map (fun x => |x * deg2rad|)
  let dep := List.zipWith
    (fun q d => Real.cos ((q.2 + q.1) / 2) * d) (listPairs latrad) dlon
  let dlat := listDiff lat
  List.zipWith (fun a b => 60 * Real.sqrt (a ^ 2 + b ^ 2) * 1.8520) dlat dep

end

/-- C4: every public function defined in sea-tmp.py raises a NameError (or its
subclass UnboundLocalError) before returning, for any arguments of the
documented array-like domain: the file has no import statement, so np,
DEG2RAD, T68conv, adtg, cor and g are unbound, and the bodies read uppercase
names (S, T, P, PR, LAT, DEPTH, PTMP, dista, LF) that differ in case from the
lowercase parameters.  The first conjunct checks the model covers exactly the
nineteen functions, in source order; the second that each raises. -/
theorem c4_every_function_raises :
    pyModule.map PyFun.pname = moduleNames ∧
    pyModule.all raisesNameError = true := by
  exact ⟨rfl, rfl⟩

/-- C9 counterexample: in the master density equation with a zero secant bulk
modulus and nonzero pressure (here densP0 = 1000, K = 0, p = 100 db), the
infinite intermediate P/K collapses the quotient to zero, a finite value, so
a zero bulk modulus does not propagate a non-finite result. -/
theorem c9_zero_k_gives_finite :
    densQ 1000 0 100 = EF.fin 0 ∧ (densQ 1000 0 100).nonFinite = false := by
  have h : densQ 1000 0 100 = EF.fin 0 := by
    norm_num [densQ, EF.div, EF.sub]
  exact ⟨h, by rw [h]; rfl⟩

/-- C9 amended: degenerate denominators never raise.  richnumb with zero shear
yields an infinity or nan; dens with a zero secant bulk modulus yields nan
when the pressure is zero, but a finite zero when it is nonzero (the infinity
produced by P/K turns 1 - P/K into an infinity, and a finite numerator over
an infinity is zero). -/
theorem c9_degenerate_denominators :
    (∀ n : ℚ, (richnumbQ n 0).nonFinite = true) ∧
    (∀ d : ℚ, densQ d 0 0 = EF.nan) ∧
    (∀ d p : ℚ, p ≠ 0 → densQ d 0 p = EF.fin 0) := by
  refine ⟨?_, ?_, ?_⟩
  · intro n
    by_cases h1 : n ^ 2 * qsign n = 0
    · simp [richnumbQ, EF.div, EF.nonFinite, h1]
    · by_cases h2 : 0 < n ^ 2 * qsign n
      · simp [richnumbQ, EF.div, EF.nonFinite, h1, h2]
      · simp [richnumbQ, EF.div, EF.nonFinite, h1, h2]
  · intro d
    norm_num [densQ, EF.div, EF.sub]
  · intro d p hp
    have h10 : p / 10 ≠ 0 := div_ne_zero hp (by norm_num)
    by_cases hpos : 0 < p / 10
    · simp [densQ, EF.div, EF.sub, h10, hpos]
    · simp [densQ, EF.div, EF.sub, h10, hpos]

/-- C9 witness: the amended statement applied at densP0 = 1000, K = 0,
p = 100. -/
theorem c9_degenerate_denominators_witness : densQ 1000 0 100 = EF.fin 0 :=
  c9_degenerate_denominators.2.2 1000 100 (by norm_num)

/-- C1: dens(s, t, p) is dens0(s, t) divided by (1 - P/K), where
K = seck(s, t, p) and P = p/10 is the pressure re-expressed in the bar units
seck returns K in.  Holds for every value of the abstract conversion constant
c (T68conv). -/
theorem c1_dens_composition (c s t p : ℝ) :
    dens c s t p = dens0 c s t / (1 - (p / 10) / seck c s t p) := rfl

/-- C2: pden(s, t, p, pr) is exactly the composition
dens(s, ptmp(s, t, p, pr), pr), for every abstract conversion constant and
every adiabatic gradient function. -/
theorem c2_pden_composition (c : ℝ) (adtg : ℝ → ℝ → ℝ → ℝ) (s t p pr : ℝ) :
    pden c adtg s t p pr = dens c s (ptmp c adtg s t p pr) pr := rfl

/-- C3: temp(s, pt, p, pr) is exactly ptmp(s, pt, pr, p): a single call to the
forward integrator with the roles of P and PR swapped, and nothing else. -/
theorem c3_temp_swaps_ptmp (c : ℝ) (adtg : ℝ → ℝ → ℝ → ℝ) (s pt p pr : ℝ) :
    temp c adtg s pt p pr = ptmp c adtg s pt pr p := rfl

/-- C5: svan(35, 0, 0) is exactly zero: both terms of
1/dens(s, t, p) - 1/dens(35, 0, p) coincide at the reference water mass. -/
theorem c5_svan_reference_zero (c : ℝ) : svan c 35 0 0 = 0 := by
  simp [svan]

/-- C6: sigma_t(s, t, p) equals dens(s, t, p) - 1000, pointwise and
elementwise on equal-length columns (in particular on the documented
8-element scenario). -/
theorem c6_sigma_t_eq_dens_minus_1000 (c : ℝ) :
    (∀ s t p : ℝ, sigma_t c s t p = dens c s t p - 1000) ∧
    (∀ ls lt lp : List ℝ,
      sigma_tVec c ls lt lp = (densVec c ls lt lp).map (fun x => x - 1000)) := by
  refine ⟨fun s t p => rfl, ?_⟩
  intro ls
  induction ls with
  | nil => intro lt lp; cases lt <;> cases lp <;> rfl
  | cons s ss ih =>
    intro lt lp
    cases lt with
    | nil => rfl
    | cons t ts =>
      cases lp with
      | nil => rfl
      | cons p ps => simp [sigma_tVec, densVec, sigma_t, ih]

/-- C7: in dist, a longitude difference with absolute value above 180 is
replaced by -sign(dlon) * (360 - abs(dlon)) before the distance computation;
for lon = [179, -179] the raw difference is -358 and the corrected difference
is 2, magnitude 2 degrees rather than 358. -/
theorem c7_antimeridian :
    (∀ d : ℝ, 180 < |d| → dlonFix d = -Real.sign d * (360 - |d|)) ∧
    listDiff [179, -179] = [-358] ∧ distDlon [179, -179] = [2] := by
  refine ⟨fun d h => by simp only [dlonFix]; rw [if_pos h], ?_, ?_⟩
  · norm_num [listDiff]
  · have h1 : (-179 : ℝ) - 179 = -358 := by norm_num
    have habs : |(-358 : ℝ)| = 358 := by
      rw [abs_of_neg (show (-358 : ℝ) < 0 by norm_num)]; norm_num
    have hsign : Real.sign (-358 : ℝ) = -1 :=
      Real.sign_of_neg (by norm_num)
    simp only [distDlon, listDiff, List.map, h1, dlonFix, habs, hsign]
    rw [if_pos (show (180 : ℝ) < 358 by norm_num)]
    norm_num

/-- C7 witness: the correction rule applied at the concrete raw difference
-358 produced by lon = [179, -179]. -/
theorem c7_antimeridian_witness :
    dlonFix (-358) = -Real.sign (-358 : ℝ) * (360 - |(-358 : ℝ)|) :=
  c7_antimeridian.1 (-358)
    (by rw [abs_of_neg (show (-358 : ℝ) < 0 by norm_num)]; norm_num)

/-- C8: N is the sign-preserving square root: N(x) = sign(x) * sqrt(abs(x))
for every input, and N(-4) = -2 (not nan; the function is total, no error is
raised on negative input). -/
theorem c8_N_sign_preserving :
    (∀ x : ℝ, N x = Real.sign x * Real.sqrt |x|) ∧ N (-4) = -2 := by
  constructor
  · intro x
    simp only [N]
    exact mul_comm _ _
  · have habs : |(-4 : ℝ)| = 4 := by
      rw [abs_of_neg (show (-4 : ℝ) < 0 by norm_num)]; norm_num
    have hs : Real.sign (-4 : ℝ) = -1 := Real.sign_of_neg (by norm_num)
    have hsqrt : Real.sqrt 4 = 2 := by
      rw [show (4 : ℝ) = 2 ^ 2 by norm_num,
        Real.sqrt_sq (show (0 : ℝ) ≤ 2 by norm_num)]
    simp only [N, habs, hs, hsqrt]
    norm_num

/-- C10: the sign-preserving square inside richnumb and the sign-preserving
square root N are inverse over the reals: N(x^2 * sign(x)) = x for every x. -/
theorem c10_N_inverts_signSquare (x : ℝ) : N (signSquare x) = x := by
  rcases lt_trichotomy x 0 with h | h | h
  · have hs : Real.sign x = -1 := Real.sign_of_neg h
    have hx2 : (0 : ℝ) < x ^ 2 := by nlinarith
    have h1 : signSquare x = -(x ^ 2) := by simp only [signSquare, hs]; ring
    have h2 : Real.sign (-(x ^ 2)) = -1 := Real.sign_of_neg (by linarith)
    simp only [N, h1, h2, abs_neg, abs_of_pos hx2, Real.sqrt_sq_eq_abs]
    rw [abs_of_neg h]; ring
  · subst h
    simp [N, signSquare]
  · have hs : Real.sign x = 1 := Real.sign_of_pos h
    have hx2 : (0 : ℝ) < x ^ 2 := by positivity
    have h1 : signSquare x = x ^ 2 := by simp only [signSquare, hs]; ring
    have h2 : Real.sign (x ^ 2) = 1 := Real.sign_of_pos hx2
    simp only [N, h1, h2, abs_of_pos hx2, Real.sqrt_sq_eq_abs, mul_one]
    exact abs_of_pos h

end SW
